import Mathlib

/-!
Verification of the AG-UI middleware pipe (`src/owui-pipe/pipe.py`).

The pipe translates OpenWebUI chat requests into AG-UI run invocations and
transcodes the AG-UI event stream (or a single JSON response) back into
OpenWebUI-visible text chunks.  We shallowly embed the relevant Python
functions over a model of Python's JSON-decoded values:

* `Json` models values produced by `json.loads` (objects keep insertion
  order, as Python dicts do; numbers are restricted to integers, which is
  all the verified claims exercise).
* Python dicts are association lists `List (String × Json)`; `dictGet` and
  `dictGetD` model `d[k]`/`d.get(k, default)` (keys in a Python dict are
  unique, so first-match lookup agrees with dict lookup).
* `uuid.uuid4()` draws are modelled by a supply `u : Nat → String` consumed
  at successive indices in the order the Python code calls `uuid.uuid4()`;
  distinctness of draws is an explicit hypothesis where a theorem needs it.
* The HTTP layer is an oracle: a function receives the response status, the
  raw body text, the result of attempting `json.loads` on it, and (for the
  streaming path) the already-split lines of the response body.
-/

namespace AGUIPipe

/-- A JSON value as decoded by Python's `json.loads`.  Object fields are kept
in insertion order, matching Python dict semantics; numbers are modelled as
integers (the only numbers the verified behaviour touches). -/
inductive Json where
  | null : Json
  | bool (b : Bool) : Json
  | int (n : Int) : Json
  | str (s : String) : Json
  | arr (xs : List Json) : Json
  | obj (fields : List (String × Json)) : Json

/-- Python `==` between a JSON-decoded value and a string literal: true
exactly when the value is that string. -/
def isStrEq (j : Json) (s : String) : Bool :=
  match j with
  | .str t => t = s
  | _ => false

/-- A Python dict of JSON values, as an insertion-ordered association list. -/
abbrev Dict := List (String × Json)

/-- Python `d.get(k)` on a dict: first (only) binding of `k`, if any. -/
def dictGet (d : Dict) (k : String) : Option Json :=
  match d.find? (fun kv => kv.1 = k) with
  | some kv => some kv.2
  | none => none

/-- Python `d.get(k, default)` on a dict. -/
def dictGetD (d : Dict) (k : String) (default : Json) : Json :=
  (dictGet d k).getD default

/-- Python truthiness of a JSON-decoded value (`if x:`). -/
def pyTruthy : Json → Bool
  | .null => false
  | .bool b => b
  | .int n => n ≠ 0
  | .str s => s ≠ ""
  | .arr xs => !xs.isEmpty
  | .obj fs => !fs.isEmpty

mutual
/-- Python `repr()` of a JSON-decoded value, for strings without characters
that `repr` would escape (all the verified claims use such strings). -/
def pyRepr : Json → String
  | .null => "None"
  | .bool true => "True"
  | .bool false => "False"
  | .int n => toString n
  | .str s => "\x27" ++ s ++ "\x27"
  | .arr xs => "[" ++ String.intercalate ", " (pyReprList xs) ++ "]"
  | .obj fs => "\x7b" ++ String.intercalate ", " (pyReprFields fs) ++ "\x7d"

def pyReprList : List Json → List String
  | [] => []
  | x :: xs => pyRepr x :: pyReprList xs

def pyReprFields : List (String × Json) → List String
  | [] => []
  | (k, v) :: fs => ("\x27" ++ k ++ "\x27: " ++ pyRepr v) :: pyReprFields fs
end

/-- Python `str()` of a JSON-decoded value. -/
def pyStr : Json → String
  | .str s => s
  | j => pyRepr j

/-- How `json.dumps` escapes one character, for the characters the verified
claims use (no further control characters or non-ASCII in dumped strings). -/
def jsonEscapeChar (c : Char) : String :=
  if c = '\\' then "\\\\"
  else if c = '"' then "\\\""
  else if c = '\n' then "\\n"
  else if c = '\t' then "\\t"
  else if c = '\r' then "\\r"
  else String.singleton c

/-- JSON string escaping as performed by `json.dumps`. -/
def jsonEscape (s : String) : String :=
  String.join (s.data.map jsonEscapeChar)

mutual
/-- Python `json.dumps(x)` with default separators `(", ", ": ")`. -/
def dumps : Json → String
  | .null => "null"
  | .bool true => "true"
  | .bool false => "false"
  | .int n => toString n
  | .str s => "\"" ++ jsonEscape s ++ "\""
  | .arr xs => "[" ++ String.intercalate ", " (dumpsList xs) ++ "]"
  | .obj fs => "\x7b" ++ String.intercalate ", " (dumpsFields fs) ++ "\x7d"

def dumpsList : List Json → List String
  | [] => []
  | x :: xs => dumps x :: dumpsList xs

def dumpsFields : List (String × Json) → List String
  | [] => []
  | (k, v) :: fs => ("\"" ++ jsonEscape k ++ "\": " ++ dumps v) :: dumpsFields fs
end

/-- Indentation padding used by `json.dumps(..., indent=2)`. -/
def pad (n : Nat) : String := String.mk (List.replicate n ' ')

mutual
/-- Python `json.dumps(x, indent=2)` (item separator becomes `","` with newlines,
key separator stays `": "`), at nesting level `lvl`. -/
def dumpsIndent : Nat → Json → String
  | _, .null => "null"
  | _, .bool true => "true"
  | _, .bool false => "false"
  | _, .int n => toString n
  | _, .str s => "\"" ++ jsonEscape s ++ "\""
  | _, .arr [] => "[]"
  | lvl, .arr (x :: xs) =>
      "[\n" ++ String.intercalate ",\n" (dumpsIndentList (lvl + 2) (x :: xs))
      ++ "\n" ++ pad lvl ++ "]"
  | _, .obj [] => "\x7b\x7d"
  | lvl, .obj (f :: fs) =>
      "\x7b\n" ++ String.intercalate ",\n" (dumpsIndentFields (lvl + 2) (f :: fs))
      ++ "\n" ++ pad lvl ++ "\x7d"

def dumpsIndentList : Nat → List Json → List String
  | _, [] => []
  | lvl, x :: xs => (pad lvl ++ dumpsIndent lvl x) :: dumpsIndentList lvl xs

def dumpsIndentFields : Nat → List (String × Json) → List String
  | _, [] => []
  | lvl, (k, v) :: fs =>
      (pad lvl ++ "\"" ++ jsonEscape k ++ "\": " ++ dumpsIndent lvl v)
        :: dumpsIndentFields lvl fs
end

/-- Top-level `json.dumps(x, indent=2)`. -/
def dumpsIndent2 (x : Json) : String := dumpsIndent 0 x

/-! ## Configuration (`Pipe.Valves`) -/

/-- The pipe's configuration valves with their source defaults. -/
structure Valves where
  AG_UI_ENDPOINT_URL : String := "http://host.docker.internal:8000"
  THREAD_ID_PREFIX : String := "openwebui"
  DEFAULT_MODEL : String := "agui-agent"

/-- Source of `Pipe.get_model_mapping`: the static OpenWebUI-id → model-name mapping. -/
def get_model_mapping : List (String × String) := [("agui-agent", "agui-agent")]

/-- Python `m.get(k, default)`-style lookup on the model mapping. -/
def mappingGet (m : List (String × String)) (k : String) : Option String :=
  match m.find? (fun kv => kv.1 = k) with
  | some kv => some kv.2
  | none => none

/-! ## Request transcoder (`Pipe.transform_openwebui_to_ag_ui`) -/

/-- Python `"." in s`: the string contains the separator character. -/
def containsSep (s : String) : Bool :=
  s.data.contains '.'

/-- Python `s.split(".", 1)[1]`: everything after the first `"."` separator. -/
def afterFirstSep (s : String) : String :=
  String.mk ((s.data.dropWhile (fun c => c ≠ '.')).drop 1)

/-- Model resolution, `pipe.py` lines 92–103.  `body.get("model", DEFAULT)`;
a truthy string containing `"."` has its suffix looked up in the mapping
with the configured default as fallback; otherwise the value itself is
looked up with itself as fallback. -/
def resolveModel (valves : Valves) (body : Dict) : Json :=
  let requested_model : Json := dictGetD body "model" (Json.str valves.DEFAULT_MODEL)
  match requested_model with
  | Json.str s =>
      if s ≠ "" && containsSep s then
        -- `if requested_model and "." in requested_model:`
        let model_id := afterFirstSep s
        match mappingGet get_model_mapping model_id with
        | some v => Json.str v
        | none => Json.str valves.DEFAULT_MODEL
      else
        match mappingGet get_model_mapping s with
        | some v => Json.str v
        | none => Json.str s
  | j =>
      -- A truthy non-string model raises in Python (`"." in x` needs a
      -- string) and is outside the modelled domain; a falsy one (e.g.
      -- null) takes the else branch, where `mapping.get(x, x)` misses
      -- (the mapping's keys are strings) and returns the value unchanged.
      j

/-- Modelled from the spec: `pop_system_message` is imported from the
external `open_webui.utils.misc` module, whose code is not part of this
repository.  Per the spec it splits off any system-role message from the
message sequence regardless of its original position: the first message
whose role is `"system"` (if any) is returned together with the remaining
messages, system-role messages removed, relative order preserved. -/
def pop_system_message (msgs : List Dict) : Option Dict × List Dict :=
  (msgs.find? (fun m => isStrEq (dictGetD m "role" Json.null) "system"),
   msgs.filter (fun m => !isStrEq (dictGetD m "role" Json.null) "system"))

/-- One transcoded AG-UI message, the dict
`{"id": ..., "role": ..., "content": ...}` built in the transform loop. -/
structure AGUIMessage where
  id : String
  role : Json
  content : Json

/-- The loop `for msg in messages:` of the transform: each message receives
the next `uuid.uuid4()` draw (supply index `start`, incremented per
message), `msg.get("role", "user")` and `msg.get("content", "")`. -/
def buildMessages (u : Nat → String) (start : Nat) : List Dict → List AGUIMessage
  | [] => []
  | m :: rest =>
      { id := "msg_" ++ u start
        role := dictGetD m "role" (Json.str "user")
        content := dictGetD m "content" (Json.str "") } :: buildMessages u (start + 1) rest

/-- One entry of the `context` list of the run invocation. -/
structure ContextItem where
  description : String
  value : String

/-- The `forwardedProps.original_params` mapping: the sampling parameters duplicated
from the request body (absent fields become null via `body.get(...)`). -/
structure OriginalParams where
  temperature : Json
  top_p : Json
  top_k : Json
  stop : Json
  stream : Json
  max_tokens : Json

/-- The `forwardedProps` mapping of the run invocation. -/
structure ForwardedProps where
  openwebui_request : Bool
  model : Json
  original_params : OriginalParams

/-- The AG-UI `RunAgentInput` dict built by the transform. -/
structure RunAgentInput where
  threadId : String
  runId : String
  state : Dict
  messages : List AGUIMessage
  tools : List Json
  context : List ContextItem
  forwardedProps : ForwardedProps

/-- Reading `body.get("messages", [])` decoded as a list of message dicts.  A
non-list value or non-dict entry raises in Python further down
(`pop_system_message` subscripts each message) and is outside the modelled
domain; totality defaults are chosen for those cases. -/
def getMessagesField (body : Dict) : List Dict :=
  match dictGetD body "messages" (Json.arr []) with
  | Json.arr items =>
      items.map fun j => match j with | Json.obj fs => fs | _ => []
  | _ => []

/-- The `if system_message:` block of the transform: the system message dict
(truthy iff non-empty) becomes one AG-UI message with role `"system"`,
content `str(system_message)`, and the third uuid draw as id. -/
def systemPart (u : Nat → String) (system_message : Option Dict) : List AGUIMessage :=
  match system_message with
  | some sm =>
      if sm.isEmpty then []
      else [{ id := "msg_" ++ u 2, role := Json.str "system",
              content := Json.str (pyStr (Json.obj sm)) }]
  | none => []

/-- Embedding of `Pipe.transform_openwebui_to_ag_ui` (`pipe.py` lines 64–140).  The
`uuid.uuid4()` draws of the call are `u 0, u 1, u 2, ...` in the order the
Python code makes them: thread id, run id, then one per emitted message. -/
def transform_openwebui_to_ag_ui (valves : Valves) (u : Nat → String) (body : Dict) :
    RunAgentInput :=
  let popped := pop_system_message (getMessagesField body)
  let system_message := popped.1
  let messages := popped.2
  let thread_id := valves.THREAD_ID_PREFIX ++ "_" ++ u 0
  let run_id := "run_" ++ u 1
  let sysList := systemPart u system_message
  let ag_ui_messages := sysList ++ buildMessages u (2 + sysList.length) messages
  let requested_model := resolveModel valves body
  let contextValue := dumps (Json.obj [
      ("original_model", dictGetD body "model" Json.null),
      ("requested_model", requested_model),
      ("user_preferences", dictGetD body "user" (Json.obj [])),
      ("source", Json.str "openwebui_pipe"),
      ("temperature", dictGetD body "temperature" Json.null),
      ("max_tokens", dictGetD body "max_tokens" Json.null),
      ("stream", dictGetD body "stream" (Json.bool true))])
  { threadId := thread_id
    runId := run_id
    state := []
    messages := ag_ui_messages
    tools := []
    context := [{ description := "OpenWebUI request metadata", value := contextValue }]
    forwardedProps :=
      { openwebui_request := true
        model := requested_model
        original_params :=
          { temperature := dictGetD body "temperature" Json.null
            top_p := dictGetD body "top_p" Json.null
            top_k := dictGetD body "top_k" Json.null
            stop := dictGetD body "stop" Json.null
            stream := dictGetD body "stream" Json.null
            max_tokens := dictGetD body "max_tokens" Json.null } } }

/-! ## Stream transcoder (`Pipe.stream_ag_ui_request`)

One line of `response.iter_lines()`, already classified the way the loop
body's tests do: empty lines are dropped by `if line:`; a line not starting
with `"data: "` is ignored; a `"data: "` line either fails `json.loads`
(`malformed`, the `JSONDecodeError` branch) or yields a JSON object whose
fields are `event`'s payload.  A `"data: "` line parsing to a non-object
raises an uncaught exception in Python and is outside the modelled domain.
-/

inductive StreamLine where
  | blank : StreamLine
  | noData (s : String) : StreamLine
  | malformed (s : String) : StreamLine
  | event (fields : Dict) : StreamLine

/-- The event dispatch of the stream loop (`pipe.py` lines 215–266): the
chunks the branch yields, paired with `false` when the branch `break`s
(RUN_FINISHED, RUN_ERROR) and `true` when the loop continues. -/
def eventAction (fs : Dict) : List Json × Bool :=
  let event_type := dictGetD fs "type" (Json.str "")
  if isStrEq event_type "TEXT_MESSAGE_CONTENT" then
    let delta := dictGetD fs "delta" (Json.str "")
    (if pyTruthy delta then [delta] else [], true)
  else if isStrEq event_type "TEXT_MESSAGE_START" then ([], true)
  else if isStrEq event_type "TEXT_MESSAGE_END" then ([], true)
  else if isStrEq event_type "RUN_STARTED" then ([], true)
  else if isStrEq event_type "RUN_FINISHED" then ([], false)
  else if isStrEq event_type "RUN_ERROR" then
    let error_msg := dictGetD fs "message" (Json.str "Unknown error")
    ([Json.str ("Error from AG-UI endpoint: " ++ pyStr error_msg)], false)
  else if isStrEq event_type "TOOL_CALL_START" then
    let tool_name := dictGetD fs "toolCallName" (Json.str "unknown")
    ([Json.str ("\n**🔧 Calling tool: `" ++ pyStr tool_name ++ "`**\n")], true)
  else if isStrEq event_type "TOOL_CALL_ARGS" then
    let args_delta := dictGetD fs "delta" (Json.str "")
    (if pyTruthy args_delta then [args_delta] else [], true)
  else if isStrEq event_type "TOOL_CALL_END" then ([Json.str "\n"], true)
  else if isStrEq event_type "TOOL_CALL_RESULT" then
    let tool_result := dictGetD fs "content" (Json.str "")
    (if pyTruthy tool_result then
      [Json.str ("**📋 Tool result:**\n```\n" ++ pyStr tool_result ++ "\n```\n\n")]
     else [], true)
  else ([], true)

/-- The event loop `for line in response.iter_lines():` of
`stream_ag_ui_request`: blank, non-`data:` and malformed lines are skipped;
an event's chunks are yielded in order; a `break`ing event stops reading. -/
def processEvents : List StreamLine → List Json
  | [] => []
  | StreamLine.blank :: rest => processEvents rest
  | StreamLine.noData _ :: rest => processEvents rest
  | StreamLine.malformed _ :: rest => processEvents rest
  | StreamLine.event fs :: rest =>
      let action := eventAction fs
      action.1 ++ (if action.2 then processEvents rest else [])

/-- One element of a 422 validation-error body:
`".".join(str(loc) for loc in error.get("loc", []))` followed by `": "` and
`error.get("msg", "Unknown error")`.  A string `loc` is iterated
character-wise, as Python's `join` does; a non-iterable `loc` or a
non-dict element raises in Python and is outside the modelled domain. -/
def formatValidationError (e : Json) : String :=
  match e with
  | Json.obj fs =>
      let field :=
        match dictGetD fs "loc" (Json.arr []) with
        | Json.arr ls => String.intercalate "." (ls.map pyStr)
        | Json.str s => String.intercalate "." (s.data.map String.singleton)
        | _ => ""
      let msg := pyStr (dictGetD fs "msg" (Json.str "Unknown error"))
      field ++ ": " ++ msg
  | _ => ""

/-- The non-200 error path shared by both transcoders (`pipe.py` lines
184–204 and 307–325): on 422 with a body that `json.loads` to a JSON list,
the elements are formatted as validation errors joined by `"; "`; otherwise
the generic status-and-body error string.  `parsedBody` is the outcome of
`json.loads(error_text)` (`none` = `JSONDecodeError`). -/
def errorResponseText (status : Nat) (errorText : String) (parsedBody : Option Json) :
    String :=
  if status = 422 then
    match parsedBody with
    | some (Json.arr errs) =>
        "Validation Error: " ++
          String.intercalate "; " (errs.map formatValidationError)
    | _ => "Error: AG-UI endpoint returned " ++ toString status ++ ": " ++ errorText
  else "Error: AG-UI endpoint returned " ++ toString status ++ ": " ++ errorText

/-- Embedding of `Pipe.stream_ag_ui_request` (`pipe.py` lines 168–287), as the sequence
of chunks the generator yields.  The HTTP layer is an oracle: `status` and
`errorText` are the response status and body text, `parsedBody` the result
of `json.loads` on that text, and `lines` the classified lines of the
response stream.  A non-200 status yields one error chunk and returns
without reading the stream; on 200 the event loop runs. -/
def stream_ag_ui_request (status : Nat) (errorText : String) (parsedBody : Option Json)
    (lines : List StreamLine) : List Json :=
  if status ≠ 200 then [Json.str (errorResponseText status errorText parsedBody)]
  else processEvents lines

/-! ## Non-stream transcoder (`Pipe.non_stream_ag_ui_request`) -/

/-- The success-path extraction of `non_stream_ag_ui_request` (`pipe.py`
lines 328–345) from the parsed response body: fields `"content"`,
`"message"`, `"text"` are returned as-is, `"result"` through `str(...)`, in
that priority order; with none present, the whole body is re-serialized
with `json.dumps(result, indent=2)`; a non-dict body goes through
`str(...)`. -/
def extractResult (result : Json) : Json :=
  match result with
  | Json.obj fs =>
      match dictGet fs "content" with
      | some v => v
      | none =>
        match dictGet fs "message" with
        | some v => v
        | none =>
          match dictGet fs "text" with
          | some v => v
          | none =>
            match dictGet fs "result" with
            | some v => Json.str (pyStr v)
            | none => Json.str (dumpsIndent2 result)
  | j => Json.str (pyStr j)

/-- Embedding of `Pipe.non_stream_ag_ui_request` (`pipe.py` lines 289–345), response
handling only (the request send is I/O).  On a non-200 status the same
error formatting as the streaming path, as a string; on 200 the parsed JSON
body (`response.json()`) goes through `extractResult`. -/
def non_stream_ag_ui_request (status : Nat) (errorText : String)
    (parsedBody : Option Json) (result : Json) : Json :=
  if status ≠ 200 then Json.str (errorResponseText status errorText parsedBody)
  else extractResult result

/-! ## Helper lemmas -/

theorem string_append_cancel_left {p a b : String} (h : p ++ a = p ++ b) : a = b := by
  apply String.ext
  have hd := congrArg String.data h
  rw [String.data_append, String.data_append] at hd
  exact List.append_cancel_left hd

theorem isStrEq_false_ne {j : Json} {s : String} (h : isStrEq j s = false) :
    j ≠ Json.str s := by
  intro he
  subst he
  simp [isStrEq] at h

theorem isStrEq_true_eq {j : Json} {s : String} (h : isStrEq j s = true) :
    j = Json.str s := by
  cases j <;> simp [isStrEq] at h
  simp [h]

theorem dictGetD_of_get_some {d : Dict} {k : String} {v dft : Json}
    (h : dictGet d k = some v) : dictGetD d k dft = v := by
  simp [dictGetD, h]

theorem dictGetD_of_get_none {d : Dict} {k : String} {dft : Json}
    (h : dictGet d k = none) : dictGetD d k dft = dft := by
  simp [dictGetD, h]

theorem transform_threadId (valves : Valves) (u : Nat → String) (body : Dict) :
    (transform_openwebui_to_ag_ui valves u body).threadId =
      valves.THREAD_ID_PREFIX ++ "_" ++ u 0 := rfl

theorem transform_runId (valves : Valves) (u : Nat → String) (body : Dict) :
    (transform_openwebui_to_ag_ui valves u body).runId = "run_" ++ u 1 := rfl

theorem transform_model (valves : Valves) (u : Nat → String) (body : Dict) :
    (transform_openwebui_to_ag_ui valves u body).forwardedProps.model =
      resolveModel valves body := rfl

theorem transform_messages_eq (valves : Valves) (u : Nat → String) (body : Dict) :
    (transform_openwebui_to_ag_ui valves u body).messages =
      systemPart u (pop_system_message (getMessagesField body)).1 ++
        buildMessages u
          (2 + (systemPart u (pop_system_message (getMessagesField body)).1).length)
          (pop_system_message (getMessagesField body)).2 := rfl

theorem buildMessages_roleContent (u : Nat → String) (ms : List Dict) : ∀ start : Nat,
    (buildMessages u start ms).map (fun m => (m.role, m.content)) =
      ms.map (fun m =>
        (dictGetD m "role" (Json.str "user"), dictGetD m "content" (Json.str ""))) := by
  induction ms with
  | nil => intro _; rfl
  | cons m rest ih => intro start; simp [buildMessages, ih (start + 1)]

theorem mem_buildMessages {u : Nat → String} {ms : List Dict} {m : AGUIMessage} :
    ∀ {start : Nat}, m ∈ buildMessages u start ms →
      ∃ m0 ∈ ms, ∃ k : Nat, start ≤ k ∧
        m = { id := "msg_" ++ u k, role := dictGetD m0 "role" (Json.str "user"),
              content := dictGetD m0 "content" (Json.str "") } := by
  induction ms with
  | nil => intro start h; simp [buildMessages] at h
  | cons m0 rest ih =>
      intro start h
      rw [buildMessages, List.mem_cons] at h
      rcases h with h | h
      · exact ⟨m0, List.mem_cons_self _ _, start, le_refl _, h⟩
      · obtain ⟨m1, hm1, k, hk, hmk⟩ := ih h
        exact ⟨m1, List.mem_cons_of_mem _ hm1, k, by omega, hmk⟩

theorem buildMessages_ids_pairwise {u : Nat → String}
    (hu : ∀ i j : Nat, i ≠ j → u i ≠ u j) (ms : List Dict) : ∀ start : Nat,
    ((buildMessages u start ms).map AGUIMessage.id).Pairwise (· ≠ ·) := by
  induction ms with
  | nil => intro _; simp [buildMessages]
  | cons m rest ih =>
      intro start
      rw [buildMessages, List.map_cons, List.pairwise_cons]
      refine ⟨?_, ih (start + 1)⟩
      intro a ha
      obtain ⟨mm, hmm, hid⟩ := List.mem_map.mp ha
      obtain ⟨m1, _, k, hk, hmk⟩ := mem_buildMessages hmm
      intro heq
      apply hu start k (by omega)
      apply string_append_cancel_left (p := "msg_")
      have ha2 : "msg_" ++ u start = a := heq
      rw [ha2, ← hid, hmk]

/-! ## Claims -/

/-- C1 (counterexample): the claim that an unmapped requested model id always
resolves to the configured default fails when the model string contains no
separator: `"somemodel"` is not in the model mapping, yet it resolves to
itself, not to the default `"agui-agent"`. -/
theorem C1_counterexample :
    mappingGet get_model_mapping "somemodel" = none
    ∧ (transform_openwebui_to_ag_ui {} (fun n => toString n)
        [("model", Json.str "somemodel")]).forwardedProps.model = Json.str "somemodel"
    ∧ Json.str "somemodel" ≠ Json.str ({} : Valves).DEFAULT_MODEL := by
  refine ⟨rfl, rfl, fun h => ?_⟩
  injection h with h2
  exact absurd h2 (by decide)

/-- C1 (amended): for a requested model string containing the separator, the
suffix after the first separator is looked up in the model mapping, a hit
resolving to the mapped value and a miss to the configured default; for a
string without the separator, the whole string is looked up, a hit resolving
to the mapped value and a miss to the requested string itself (unchanged),
not to the default. -/
theorem C1_model_resolution (valves : Valves) (u : Nat → String) (body : Dict)
    (s : String) (hmodel : dictGet body "model" = some (Json.str s)) :
    (s ≠ "" → containsSep s = true →
      (∀ v, mappingGet get_model_mapping (afterFirstSep s) = some v →
        (transform_openwebui_to_ag_ui valves u body).forwardedProps.model = Json.str v)
      ∧ (mappingGet get_model_mapping (afterFirstSep s) = none →
        (transform_openwebui_to_ag_ui valves u body).forwardedProps.model
          = Json.str valves.DEFAULT_MODEL))
    ∧ (containsSep s = false →
      (∀ v, mappingGet get_model_mapping s = some v →
        (transform_openwebui_to_ag_ui valves u body).forwardedProps.model = Json.str v)
      ∧ (mappingGet get_model_mapping s = none →
        (transform_openwebui_to_ag_ui valves u body).forwardedProps.model
          = Json.str s)) := by
  have hreq : dictGetD body "model" (Json.str valves.DEFAULT_MODEL) = Json.str s :=
    dictGetD_of_get_some hmodel
  constructor
  · intro hne hdot
    constructor
    · intro v hv
      rw [transform_model]
      simp [resolveModel, hreq, hne, hdot, hv]
    · intro hv
      rw [transform_model]
      simp [resolveModel, hreq, hne, hdot, hv]
  · intro hdot
    constructor
    · intro v hv
      rw [transform_model]
      simp [resolveModel, hreq, hdot, hv]
    · intro hv
      rw [transform_model]
      simp [resolveModel, hreq, hdot, hv]

/-- C1 witness: concrete instantiations of the amended model-resolution
theorem — a prefixed mapped model resolves to the mapped name, a prefixed
unmapped model to the default, and an unprefixed unmapped model to itself. -/
theorem C1_model_resolution_witness :
    (transform_openwebui_to_ag_ui {} (fun n => toString n)
      [("model", Json.str "aguimiddleware.agui-agent")]).forwardedProps.model
        = Json.str "agui-agent"
    ∧ (transform_openwebui_to_ag_ui {} (fun n => toString n)
        [("model", Json.str "aguimiddleware.unknown")]).forwardedProps.model
          = Json.str ({} : Valves).DEFAULT_MODEL
    ∧ (transform_openwebui_to_ag_ui {} (fun n => toString n)
        [("model", Json.str "somemodel")]).forwardedProps.model
          = Json.str "somemodel" :=
  ⟨((C1_model_resolution {} (fun n => toString n)
        [("model", Json.str "aguimiddleware.agui-agent")]
        "aguimiddleware.agui-agent" rfl).1 (by decide) (by decide)).1 "agui-agent" rfl,
   ((C1_model_resolution {} (fun n => toString n)
        [("model", Json.str "aguimiddleware.unknown")]
        "aguimiddleware.unknown" rfl).1 (by decide) (by decide)).2 rfl,
   ((C1_model_resolution {} (fun n => toString n)
        [("model", Json.str "somemodel")]
        "somemodel" rfl).2 (by decide)).2 rfl⟩

/-- C3: the `forwardedProps.original_params` of the produced run invocation
carries exactly the request body's `temperature`, `top_p`, `top_k`, `stop`,
`stream` and `max_tokens`, untransformed, an absent field becoming null. -/
theorem C3_sampling_params_roundtrip (valves : Valves) (u : Nat → String) (body : Dict) :
    (transform_openwebui_to_ag_ui valves u body).forwardedProps.original_params =
      { temperature := (dictGet body "temperature").getD Json.null
        top_p := (dictGet body "top_p").getD Json.null
        top_k := (dictGet body "top_k").getD Json.null
        stop := (dictGet body "stop").getD Json.null
        stream := (dictGet body "stream").getD Json.null
        max_tokens := (dictGet body "max_tokens").getD Json.null } := rfl

/-- The literal event sequence of the stream-transcoding claim. -/
def c2EventLines : List StreamLine :=
  [StreamLine.event [("type", Json.str "RUN_STARTED"), ("runId", Json.str "run_1")],
   StreamLine.event [("type", Json.str "TEXT_MESSAGE_START"), ("messageId", Json.str "m1")],
   StreamLine.event [("type", Json.str "TEXT_MESSAGE_CONTENT"), ("delta", Json.str "Hi")],
   StreamLine.event [("type", Json.str "TEXT_MESSAGE_CONTENT"), ("delta", Json.str " there")],
   StreamLine.event [("type", Json.str "TEXT_MESSAGE_END"), ("messageId", Json.str "m1")],
   StreamLine.event [("type", Json.str "RUN_FINISHED"), ("runId", Json.str "run_1")]]

/-- C2: transcoding the literal sequence RUN_STARTED, TEXT_MESSAGE_START,
TEXT_MESSAGE_CONTENT "Hi", TEXT_MESSAGE_CONTENT " there", TEXT_MESSAGE_END,
RUN_FINISHED with a 200 response yields exactly the chunks "Hi", " there";
RUN_FINISHED stops the loop, so any events appended after it contribute no
chunks. -/
theorem C2_stream_transcoding : ∀ extra : List StreamLine,
    stream_ag_ui_request 200 "" none (c2EventLines ++ extra) =
      [Json.str "Hi", Json.str " there"] :=
  fun _ => rfl

/-- A malformed `data: ` line anywhere in the stream is skipped: the chunk
sequence equals that of the stream with the line removed. -/
theorem processEvents_malformed (s : String) (ys : List StreamLine) :
    ∀ xs : List StreamLine,
      processEvents (xs ++ StreamLine.malformed s :: ys) = processEvents (xs ++ ys) := by
  intro xs
  induction xs with
  | nil => rfl
  | cons l rest ih =>
      cases l with
      | blank => simpa [processEvents] using ih
      | noData t => simpa [processEvents] using ih
      | malformed t => simpa [processEvents] using ih
      | event fs => simp [processEvents, ih]

/-- C6: a line that starts with `data: ` but fails to JSON-parse is skipped
and processing continues — inserting one malformed line anywhere in a 200
stream leaves the chunk sequence unchanged; in particular a malformed line
between two valid TEXT_MESSAGE_CONTENT events yields exactly the two
content chunks. -/
theorem C6_malformed_recoverable :
    (∀ (xs : List StreamLine) (s : String) (ys : List StreamLine),
      stream_ag_ui_request 200 "" none (xs ++ StreamLine.malformed s :: ys) =
        stream_ag_ui_request 200 "" none (xs ++ ys))
    ∧ stream_ag_ui_request 200 "" none
        [StreamLine.event [("type", Json.str "TEXT_MESSAGE_CONTENT"), ("delta", Json.str "Hi")],
         StreamLine.malformed "not json",
         StreamLine.event [("type", Json.str "TEXT_MESSAGE_CONTENT"), ("delta", Json.str " there")]]
      = [Json.str "Hi", Json.str " there"] := by
  refine ⟨fun xs s ys => ?_, rfl⟩
  show processEvents _ = processEvents _
  exact processEvents_malformed s ys xs

/-- The validation-error rendering as the spec words it (refinement target
for the 422 formatting claim): each element's loc path joined by `"."`,
then `": "` and the message; elements joined by `"; "` after the prefix. -/
def specValidationMessage (elems : List (List String × String)) : String :=
  "Validation Error: " ++ String.intercalate "; "
    (elems.map fun e => String.intercalate "." e.1 ++ ": " ++ e.2)

/-- A `{loc, msg}` validation element as the JSON object the endpoint sends. -/
def encodeValidationError (e : List String × String) : Json :=
  Json.obj [("loc", Json.arr (e.1.map Json.str)), ("msg", Json.str e.2)]

/-- C7: a 422 response whose body parses to the JSON list
`[{"loc":["body","model"],"msg":"field required"}]` makes the streaming
transcoder emit the single chunk
`"Validation Error: body.model: field required"` and read no stream events;
in general each `{loc, msg}` element renders as the loc path joined by `"."`,
`": "`, then the message, elements joined by `"; "`. -/
theorem C7_422_validation_formatting :
    (∀ (t : String) (lines : List StreamLine),
      stream_ag_ui_request 422 t
        (some (Json.arr [Json.obj [("loc", Json.arr [Json.str "body", Json.str "model"]),
                                   ("msg", Json.str "field required")]])) lines
        = [Json.str "Validation Error: body.model: field required"])
    ∧ (∀ (elems : List (List String × String)) (t : String) (lines : List StreamLine),
      stream_ag_ui_request 422 t (some (Json.arr (elems.map encodeValidationError))) lines
        = [Json.str (specValidationMessage elems)]) := by
  refine ⟨fun t lines => rfl, fun elems t lines => ?_⟩
  show [Json.str ("Validation Error: " ++ String.intercalate "; "
      ((elems.map encodeValidationError).map formatValidationError))] = _
  rw [List.map_map]
  have hfmt : ∀ e : List String × String,
      (formatValidationError ∘ encodeValidationError) e =
        String.intercalate "." e.1 ++ ": " ++ e.2 := by
    intro e
    show String.intercalate "." ((e.1.map Json.str).map pyStr) ++ ": " ++ e.2 = _
    rw [List.map_map]
    have : e.1.map (pyStr ∘ Json.str) = e.1.map id := List.map_congr_left fun a _ => rfl
    rw [this, List.map_id]
  rw [List.map_congr_left fun e _ => hfmt e]
  rfl

/-- C10: the 422 special-casing applies only to JSON-array bodies — a 422
response whose body is not valid JSON, or parses to a non-list (e.g. an
object), falls through to the generic
`"Error: AG-UI endpoint returned 422: "` message in both the streaming and
the non-streaming transcoder. -/
theorem C10_422_only_list_bodies :
    (∀ (t : String) (lines : List StreamLine),
      stream_ag_ui_request 422 t none lines
        = [Json.str ("Error: AG-UI endpoint returned 422: " ++ t)])
    ∧ (∀ (t : String) (fs : Dict) (lines : List StreamLine),
      stream_ag_ui_request 422 t (some (Json.obj fs)) lines
        = [Json.str ("Error: AG-UI endpoint returned 422: " ++ t)])
    ∧ (∀ (t : String) (res : Json),
      non_stream_ag_ui_request 422 t none res
        = Json.str ("Error: AG-UI endpoint returned 422: " ++ t))
    ∧ (∀ (t : String) (fs : Dict) (res : Json),
      non_stream_ag_ui_request 422 t (some (Json.obj fs)) res
        = Json.str ("Error: AG-UI endpoint returned 422: " ++ t)) :=
  ⟨fun _ _ => rfl, fun _ _ _ => rfl, fun _ _ => rfl, fun _ _ _ => rfl⟩

/-- C8: on a 200 non-streaming response, the textual result is the first
present among the fields `"content"`, `"message"`, `"text"`, `"result"` (the
last through `str(...)`), in that priority order; with none present the
whole body is returned pretty-printed — so `{"content":"answer"}` yields
exactly `"answer"` and `{"foo":"bar"}` the pretty-printed body. -/
theorem C8_nonstream_extraction_order :
    non_stream_ag_ui_request 200 "" none (Json.obj [("content", Json.str "answer")])
        = Json.str "answer"
    ∧ non_stream_ag_ui_request 200 "" none (Json.obj [("foo", Json.str "bar")])
        = Json.str "\x7b\n  \"foo\": \"bar\"\n\x7d"
    ∧ (∀ (fs : Dict) (v : Json), dictGet fs "content" = some v →
        non_stream_ag_ui_request 200 "" none (Json.obj fs) = v)
    ∧ (∀ (fs : Dict) (v : Json), dictGet fs "content" = none →
        dictGet fs "message" = some v →
        non_stream_ag_ui_request 200 "" none (Json.obj fs) = v)
    ∧ (∀ (fs : Dict) (v : Json), dictGet fs "content" = none →
        dictGet fs "message" = none → dictGet fs "text" = some v →
        non_stream_ag_ui_request 200 "" none (Json.obj fs) = v)
    ∧ (∀ (fs : Dict) (v : Json), dictGet fs "content" = none →
        dictGet fs "message" = none → dictGet fs "text" = none →
        dictGet fs "result" = some v →
        non_stream_ag_ui_request 200 "" none (Json.obj fs) = Json.str (pyStr v))
    ∧ (∀ fs : Dict, dictGet fs "content" = none → dictGet fs "message" = none →
        dictGet fs "text" = none → dictGet fs "result" = none →
        non_stream_ag_ui_request 200 "" none (Json.obj fs)
          = Json.str (dumpsIndent2 (Json.obj fs))) := by
  refine ⟨rfl, rfl, ?_, ?_, ?_, ?_, ?_⟩
  · intro fs v h1
    show extractResult (Json.obj fs) = v
    simp [extractResult, h1]
  · intro fs v h1 h2
    show extractResult (Json.obj fs) = v
    simp [extractResult, h1, h2]
  · intro fs v h1 h2 h3
    show extractResult (Json.obj fs) = v
    simp [extractResult, h1, h2, h3]
  · intro fs v h1 h2 h3 h4
    show extractResult (Json.obj fs) = Json.str (pyStr v)
    simp [extractResult, h1, h2, h3, h4]
  · intro fs h1 h2 h3 h4
    show extractResult (Json.obj fs) = Json.str (dumpsIndent2 (Json.obj fs))
    simp [extractResult, h1, h2, h3, h4]

/-- C8 witness: concrete instantiation of the priority-order conjuncts — a
body whose first present field is `"message"` returns that field's value. -/
theorem C8_nonstream_extraction_order_witness :
    non_stream_ag_ui_request 200 "" none
      (Json.obj [("text", Json.str "t"), ("result", Json.int 5)]) = Json.str "t" :=
  C8_nonstream_extraction_order.2.2.2.2.1
    [("text", Json.str "t"), ("result", Json.int 5)] (Json.str "t") rfl rfl rfl

/-- C9: a TEXT_MESSAGE_CONTENT or TOOL_CALL_ARGS event whose delta is absent
or the empty string yields no chunk at all, and a TOOL_CALL_RESULT event
whose content is absent or empty likewise; a non-empty field is what makes
the event emit. -/
theorem C9_empty_fields_suppressed :
    (∀ (fs : Dict) (rest : List StreamLine),
      dictGetD fs "type" (Json.str "") = Json.str "TEXT_MESSAGE_CONTENT" →
      dictGetD fs "delta" (Json.str "") = Json.str "" →
      processEvents (StreamLine.event fs :: rest) = processEvents rest)
    ∧ (∀ (fs : Dict) (rest : List StreamLine),
      dictGetD fs "type" (Json.str "") = Json.str "TOOL_CALL_ARGS" →
      dictGetD fs "delta" (Json.str "") = Json.str "" →
      processEvents (StreamLine.event fs :: rest) = processEvents rest)
    ∧ (∀ (fs : Dict) (rest : List StreamLine),
      dictGetD fs "type" (Json.str "") = Json.str "TOOL_CALL_RESULT" →
      dictGetD fs "content" (Json.str "") = Json.str "" →
      processEvents (StreamLine.event fs :: rest) = processEvents rest)
    ∧ (∀ (fs : Dict) (rest : List StreamLine) (s : String),
      dictGetD fs "type" (Json.str "") = Json.str "TEXT_MESSAGE_CONTENT" →
      dictGetD fs "delta" (Json.str "") = Json.str s → s ≠ "" →
      processEvents (StreamLine.event fs :: rest) = Json.str s :: processEvents rest)
    ∧ (∀ (fs : Dict) (rest : List StreamLine) (s : String),
      dictGetD fs "type" (Json.str "") = Json.str "TOOL_CALL_RESULT" →
      dictGetD fs "content" (Json.str "") = Json.str s → s ≠ "" →
      processEvents (StreamLine.event fs :: rest)
        = Json.str ("**📋 Tool result:**\n```\n" ++ s ++ "\n```\n\n")
            :: processEvents rest) := by
  refine ⟨?_, ?_, ?_, ?_, ?_⟩
  · intro fs rest ht hd
    simp [processEvents, eventAction, ht, hd, pyTruthy, isStrEq]
  · intro fs rest ht hd
    simp [processEvents, eventAction, ht, hd, pyTruthy, isStrEq]
  · intro fs rest ht hd
    simp [processEvents, eventAction, ht, hd, pyTruthy, isStrEq]
  · intro fs rest s ht hd hs
    simp [processEvents, eventAction, ht, hd, pyTruthy, isStrEq, hs]
  · intro fs rest s ht hd hs
    simp [processEvents, eventAction, ht, hd, pyTruthy, isStrEq, hs, pyStr]

/-- C9 witness: a TEXT_MESSAGE_CONTENT event with an explicitly empty delta
emits nothing, while one with delta `"x"` emits exactly `"x"`. -/
theorem C9_empty_fields_suppressed_witness :
    processEvents [StreamLine.event [("type", Json.str "TEXT_MESSAGE_CONTENT"),
                                     ("delta", Json.str "")]] = []
    ∧ processEvents [StreamLine.event [("type", Json.str "TEXT_MESSAGE_CONTENT"),
                                       ("delta", Json.str "x")]] = [Json.str "x"] :=
  ⟨C9_empty_fields_suppressed.1 _ [] rfl rfl,
   C9_empty_fields_suppressed.2.2.2.1 _ [] "x" rfl rfl (by decide)⟩

/-- Every id in the transcoded message list is `"msg_"` followed by the
uuid draw of index `k ≥ 2` (draws 0 and 1 are the thread and run ids). -/
theorem transform_message_id_mem (valves : Valves) (u : Nat → String) (body : Dict)
    {a : String}
    (ha : a ∈ (transform_openwebui_to_ag_ui valves u body).messages.map AGUIMessage.id) :
    ∃ k : Nat, 2 ≤ k ∧ a = "msg_" ++ u k := by
  rw [transform_messages_eq, List.map_append, List.mem_append] at ha
  rcases ha with ha | ha
  · cases hsys : (pop_system_message (getMessagesField body)).1 with
    | none => rw [hsys] at ha; simp [systemPart] at ha
    | some sm =>
        rw [hsys] at ha
        by_cases he : sm.isEmpty
        · simp [systemPart, he] at ha
        · simp [systemPart, he] at ha
          exact ⟨2, le_refl _, ha⟩
  · obtain ⟨mm, hmm, hid⟩ := List.mem_map.mp ha
    obtain ⟨m1, _, k, hk, hmk⟩ := mem_buildMessages hmm
    refine ⟨k, by omega, ?_⟩
    rw [← hid, hmk]

/-- C4: with all uuid draws of one call distinct, the transcoded messages
carry pairwise distinct ids; and with the draws of two calls on the same
input disjoint (two runs of the uuid generator), the two calls' threadId,
runId and message ids all differ. -/
theorem C4_fresh_identifiers (valves : Valves) (body : Dict) (u v : Nat → String)
    (hu : ∀ i j : Nat, i ≠ j → u i ≠ u j)
    (huv : ∀ i j : Nat, u i ≠ v j) :
    ((transform_openwebui_to_ag_ui valves u body).messages.map AGUIMessage.id).Pairwise
        (· ≠ ·)
    ∧ (transform_openwebui_to_ag_ui valves u body).threadId
        ≠ (transform_openwebui_to_ag_ui valves v body).threadId
    ∧ (transform_openwebui_to_ag_ui valves u body).runId
        ≠ (transform_openwebui_to_ag_ui valves v body).runId
    ∧ ∀ a ∈ (transform_openwebui_to_ag_ui valves u body).messages.map AGUIMessage.id,
        ∀ b ∈ (transform_openwebui_to_ag_ui valves v body).messages.map AGUIMessage.id,
          a ≠ b := by
  refine ⟨?_, ?_, ?_, ?_⟩
  · rw [transform_messages_eq, List.map_append, List.pairwise_append]
    refine ⟨?_, buildMessages_ids_pairwise hu _ _, ?_⟩
    · cases hsys : (pop_system_message (getMessagesField body)).1 with
      | none => simp [systemPart]
      | some sm => by_cases he : sm.isEmpty <;> simp [systemPart, he]
    · intro a ha b hb
      cases hsys : (pop_system_message (getMessagesField body)).1 with
      | none => rw [hsys] at ha; simp [systemPart] at ha
      | some sm =>
          rw [hsys] at ha hb
          by_cases he : sm.isEmpty
          · simp [systemPart, he] at ha
          · simp [systemPart, he] at ha
            obtain ⟨mm, hmm, hid⟩ := List.mem_map.mp hb
            obtain ⟨m1, _, k, hk, hmk⟩ := mem_buildMessages hmm
            have hb2 : b = "msg_" ++ u k := by rw [← hid, hmk]
            rw [ha, hb2]
            intro h
            have hlen : (systemPart u (some sm)).length = 1 := by
              simp [systemPart, he]
            rw [hlen] at hk
            exact hu 2 k (by omega) (string_append_cancel_left h)
  · rw [transform_threadId, transform_threadId]
    intro h
    exact huv 0 0 (string_append_cancel_left h)
  · rw [transform_runId, transform_runId]
    intro h
    exact huv 1 1 (string_append_cancel_left h)
  · intro a ha b hb
    obtain ⟨k, _, hak⟩ := transform_message_id_mem valves u body ha
    obtain ⟨l, _, hbl⟩ := transform_message_id_mem valves v body hb
    rw [hak, hbl]
    intro h
    exact huv k l (string_append_cancel_left h)

/-- The request body used to instantiate the fresh-identifier theorem. -/
def c4Body : Dict :=
  [("messages", Json.arr
    [Json.obj [("role", Json.str "system"), ("content", Json.str "be nice")],
     Json.obj [("role", Json.str "user"), ("content", Json.str "hi")]])]

/-- First concrete uuid supply: draw `n` is `2n` repetitions of `a`. -/
def c4SupplyU (n : Nat) : String := String.mk (List.replicate (2 * n) 'a')

/-- Second concrete uuid supply, disjoint from the first: draw `n` is
`2n + 1` repetitions of `a`. -/
def c4SupplyV (n : Nat) : String := String.mk (List.replicate (2 * n + 1) 'a')

/-- C4 witness: the fresh-identifier theorem at a concrete two-message body
and two concrete disjoint injective uuid supplies. -/
theorem C4_fresh_identifiers_witness :
    ((transform_openwebui_to_ag_ui {} c4SupplyU c4Body).messages.map AGUIMessage.id).Pairwise
        (· ≠ ·)
    ∧ (transform_openwebui_to_ag_ui {} c4SupplyU c4Body).threadId
        ≠ (transform_openwebui_to_ag_ui {} c4SupplyV c4Body).threadId
    ∧ (transform_openwebui_to_ag_ui {} c4SupplyU c4Body).runId
        ≠ (transform_openwebui_to_ag_ui {} c4SupplyV c4Body).runId
    ∧ ∀ a ∈ (transform_openwebui_to_ag_ui {} c4SupplyU c4Body).messages.map AGUIMessage.id,
        ∀ b ∈ (transform_openwebui_to_ag_ui {} c4SupplyV c4Body).messages.map AGUIMessage.id,
          a ≠ b :=
  C4_fresh_identifiers {} c4Body c4SupplyU c4SupplyV
    (by
      intro i j hij h
      apply hij
      have h2 : List.replicate (2 * i) 'a' = List.replicate (2 * j) 'a' :=
        congrArg String.data h
      have h3 := congrArg List.length h2
      simp only [List.length_replicate] at h3
      omega)
    (by
      intro i j h
      have h2 : List.replicate (2 * i) 'a' = List.replicate (2 * j + 1) 'a' :=
        congrArg String.data h
      have h3 := congrArg List.length h2
      simp only [List.length_replicate] at h3
      omega)

/-- Decoding the `messages` field of a body whose value is a JSON list of
objects recovers exactly those objects. -/
theorem getMessagesField_eq {body : Dict} {ms : List Dict}
    (hbody : dictGet body "messages" = some (Json.arr (ms.map Json.obj))) :
    getMessagesField body = ms := by
  unfold getMessagesField
  rw [dictGetD_of_get_some hbody]
  show (ms.map Json.obj).map _ = ms
  rw [List.map_map]
  exact (List.map_congr_left fun a _ => rfl).trans (List.map_id' ms)

/-- C5: when the request's message list contains a system-role message, the
transcoded message list starts with a message of role "system" whose content
is the stringified input system message, role "system" appears at no other
position, and the remaining messages keep their relative order (as their
role/content pairs). -/
theorem C5_system_message_first (valves : Valves) (u : Nat → String) (body : Dict)
    (ms : List Dict)
    (hbody : dictGet body "messages" = some (Json.arr (ms.map Json.obj)))
    (hsys : ∃ m ∈ ms, dictGetD m "role" Json.null = Json.str "system") :
    ∃ (h : AGUIMessage) (rest : List AGUIMessage),
      (transform_openwebui_to_ag_ui valves u body).messages = h :: rest
      ∧ h.role = Json.str "system"
      ∧ (∃ sm ∈ ms, dictGetD sm "role" Json.null = Json.str "system"
          ∧ h.content = Json.str (pyStr (Json.obj sm)))
      ∧ (∀ m ∈ rest, m.role ≠ Json.str "system")
      ∧ rest.map (fun m => (m.role, m.content)) =
          (ms.filter (fun m => !isStrEq (dictGetD m "role" Json.null) "system")).map
            (fun m =>
              (dictGetD m "role" (Json.str "user"), dictGetD m "content" (Json.str ""))) := by
  have hg : getMessagesField body = ms := getMessagesField_eq hbody
  -- the system message the transform finds
  obtain ⟨m0, hm0, hrole0⟩ := hsys
  have hpred : (fun m => isStrEq (dictGetD m "role" Json.null) "system") m0 = true := by
    simp [hrole0, isStrEq]
  have hfound : (ms.find? (fun m => isStrEq (dictGetD m "role" Json.null) "system")).isSome :=
    List.find?_isSome.mpr ⟨m0, hm0, hpred⟩
  obtain ⟨sm, hfind⟩ := Option.isSome_iff_exists.mp hfound
  have hsm_pred := List.find?_some hfind
  have hsm_role : dictGetD sm "role" Json.null = Json.str "system" :=
    isStrEq_true_eq hsm_pred
  have hsm_mem : sm ∈ ms := List.mem_of_find?_eq_some hfind
  have he : sm.isEmpty = false := by
    cases sm with
    | nil => simp [dictGetD, dictGet] at hsm_role
    | cons kv rest => rfl
  have hpop1 : (pop_system_message (getMessagesField body)).1 = some sm := by
    rw [hg]; exact hfind
  have hsp : systemPart u (pop_system_message (getMessagesField body)).1 =
      [{ id := "msg_" ++ u 2, role := Json.str "system",
         content := Json.str (pyStr (Json.obj sm)) }] := by
    rw [hpop1]; simp [systemPart, he]
  have hpop2 : (pop_system_message (getMessagesField body)).2 =
      ms.filter (fun m => !isStrEq (dictGetD m "role" Json.null) "system") := by
    rw [hg]; rfl
  refine ⟨{ id := "msg_" ++ u 2, role := Json.str "system",
            content := Json.str (pyStr (Json.obj sm)) },
          buildMessages u 3
            (ms.filter (fun m => !isStrEq (dictGetD m "role" Json.null) "system")),
          ?_, rfl, ⟨sm, hsm_mem, hsm_role, rfl⟩, ?_, ?_⟩
  · rw [transform_messages_eq, hsp, hpop2]
    rfl
  · intro m hm
    obtain ⟨m1, hm1, k, _, hmk⟩ := mem_buildMessages hm
    have hm1f := (List.mem_filter.mp hm1).2
    have hm1role : dictGetD m1 "role" Json.null ≠ Json.str "system" :=
      isStrEq_false_ne (by
        cases hx : isStrEq (dictGetD m1 "role" Json.null) "system"
        · rfl
        · rw [hx] at hm1f; simp at hm1f)
    rw [hmk]
    show dictGetD m1 "role" (Json.str "user") ≠ Json.str "system"
    cases hr : dictGet m1 "role" with
    | none =>
        rw [dictGetD_of_get_none hr]
        intro hcontra
        injection hcontra with hs
        exact absurd hs (by decide)
    | some r =>
        rw [dictGetD_of_get_some hr]
        rw [dictGetD_of_get_some hr] at hm1role
        exact hm1role
  · exact buildMessages_roleContent u _ 3

/-- C5 witness: a concrete body whose second message has role "system" —
the transcoded list puts the system message first and keeps the one
remaining user message. -/
theorem C5_system_message_first_witness :
    ∃ (h : AGUIMessage) (rest : List AGUIMessage),
      (transform_openwebui_to_ag_ui {} (fun n => toString n)
        [("messages", Json.arr
          [Json.obj [("role", Json.str "user"), ("content", Json.str "hi")],
           Json.obj [("role", Json.str "system"), ("content", Json.str "be nice")]])]).messages
        = h :: rest
      ∧ h.role = Json.str "system"
      ∧ (∃ sm ∈ [[("role", Json.str "user"), ("content", Json.str "hi")],
                  [("role", Json.str "system"), ("content", Json.str "be nice")]],
          dictGetD sm "role" Json.null = Json.str "system"
          ∧ h.content = Json.str (pyStr (Json.obj sm)))
      ∧ (∀ m ∈ rest, m.role ≠ Json.str "system")
      ∧ rest.map (fun m => (m.role, m.content)) =
          ([[("role", Json.str "user"), ("content", Json.str "hi")],
            [("role", Json.str "system"), ("content", Json.str "be nice")]].filter
              (fun m => !isStrEq (dictGetD m "role" Json.null) "system")).map
            (fun m =>
              (dictGetD m "role" (Json.str "user"), dictGetD m "content" (Json.str ""))) :=
  C5_system_message_first {} (fun n => toString n) _
    [[("role", Json.str "user"), ("content", Json.str "hi")],
     [("role", Json.str "system"), ("content", Json.str "be nice")]]
    rfl
    ⟨[("role", Json.str "system"), ("content", Json.str "be nice")],
      by simp, rfl⟩

end AGUIPipe
